import Mathlib

/-!
Shallow embedding of the simulation core of `src/main.py` ("Light War", a
single-player 2D arcade shooter) and verification of the frozen claims
about it.

Modelling conventions:
* Positions and all real-valued quantities are exact rationals,
  represented by the raw-fraction type `Q` below (numerator / positive
  denominator, not normalized).  The program never divides by a runtime
  value — every division in the source is by a literal constant — so
  addition, multiplication, negation and comparisons suffice, and all of
  them are exact on raw fractions.  (`ℚ` itself is unusable here: its
  arithmetic is `@[irreducible]`, so concrete states could never be
  evaluated.)
* The source compares `Vector2.length() <= r`; we compare squared
  distance with `r * r`, which is equivalent whenever `0 ≤ r`, and every
  radius sum in the program is positive.
* Calls to the process-wide random source (`random.random()`,
  `random.randint`, `random.uniform`) and to the irrational geometric
  primitives (`Vector2.normalize`, `math.sin`) are modelled as per-tick
  oracle inputs (`TickInput`, `EnemyCtl`): the value the source obtains
  from the call becomes an explicit input of the tick function.
* The decorative star background and the audio collaborator
  (`MusicManager`) mutate no simulation state and are omitted, as are all
  `draw` methods (rendering only).  The `trail` / `pulse` / `glow_boost` /
  `wobble_seed` fields are kept because the source updates them inside the
  simulation loop.
-/

namespace LightWar

/-- Exact rational number as a raw fraction.  Every value the program
builds has a positive denominator; no normalization is needed because the
simulation only adds, multiplies, negates and compares. -/
structure Q where
  num : ℤ
  den : ℕ
deriving DecidableEq

/-- The fraction `n / d`. -/
def Q.frac (n : ℤ) (d : ℕ) : Q := ⟨n, d⟩

instance (n : ℕ) : OfNat Q n := ⟨⟨n, 1⟩⟩

instance : Add Q := ⟨fun a b => ⟨a.num * b.den + b.num * a.den, a.den * b.den⟩⟩

instance : Mul Q := ⟨fun a b => ⟨a.num * b.num, a.den * b.den⟩⟩

instance : Neg Q := ⟨fun a => ⟨-a.num, a.den⟩⟩

instance : Sub Q := ⟨fun a b => a + -b⟩

/-- `a ≤ b` on fractions with positive denominators. -/
def Q.le (a b : Q) : Bool := decide (a.num * b.den ≤ b.num * a.den)

/-- `a < b` on fractions with positive denominators. -/
def Q.lt (a b : Q) : Bool := decide (a.num * b.den < b.num * a.den)

/-- Python's `min(a, b)` (returns the first argument on ties). -/
def Q.min (a b : Q) : Q := if a.le b then a else b

/-- Python's `max(a, b)` (returns the first argument on ties). -/
def Q.max (a b : Q) : Q := if b.le a then a else b

/-- Embedding of a Python int into `Q`. -/
def Q.ofNat (n : ℕ) : Q := ⟨n, 1⟩

/-- `WIDTH` from the source (900). -/
def WIDTH : Q := 900

/-- `HEIGHT` from the source (700). -/
def HEIGHT : Q := 700

/-- `FPS` from the source (60). -/
def FPS : ℤ := 60

/-- A 2D vector (the source's `pygame.Vector2`), with exact coordinates. -/
structure Vec where
  x : Q
  y : Q
deriving DecidableEq

instance : Add Vec := ⟨fun a b => ⟨a.x + b.x, a.y + b.y⟩⟩

/-- Vector times scalar. -/
def Vec.scale (v : Vec) (c : Q) : Vec := ⟨v.x * c, v.y * c⟩

/-- Circle-circle collision test of the source:
`(p - q).length() <= r`, expressed with squared distances (equivalent for
`0 ≤ r`, which holds at every call site since radii are positive). -/
def circleHit (p q : Vec) (r : Q) : Bool :=
  ((p.x - q.x) * (p.x - q.x) + (p.y - q.y) * (p.y - q.y)).le (r * r)

/-- `GameState` enum from the source. -/
inductive GameState where
  | PLAYING
  | WORLD_COMPLETE
  | GAME_OVER
deriving DecidableEq

/-- `WorldConfig` dataclass from the source. -/
structure WorldConfig where
  world_number : ℕ
  player_speed : Q
  starting_lives : ℤ
  aura_gain_per_pickup : ℕ
  enemy_spawn_rate : Q
  aura_spawn_rate : Q
  enemy_level_range : ℕ × ℕ
  boss_level : ℕ
  aura_required_for_boss_spawn : ℕ
deriving DecidableEq

/-- The 7-entry `WORLD_CONFIGS` table from the source. -/
def WORLD_CONFIGS : List WorldConfig := [
  ⟨1, Q.frac 48 10, 6, 12, Q.frac 12 1000, Q.frac 18 1000, (1, 2), 4, 220⟩,
  ⟨2, Q.frac 50 10, 6, 11, Q.frac 14 1000, Q.frac 17 1000, (1, 3), 5, 300⟩,
  ⟨3, Q.frac 52 10, 5, 10, Q.frac 16 1000, Q.frac 16 1000, (2, 4), 6, 390⟩,
  ⟨4, Q.frac 54 10, 5, 9, Q.frac 18 1000, Q.frac 15 1000, (3, 5), 7, 500⟩,
  ⟨5, Q.frac 56 10, 4, 8, Q.frac 20 1000, Q.frac 14 1000, (4, 6), 8, 620⟩,
  ⟨6, Q.frac 58 10, 4, 7, Q.frac 22 1000, Q.frac 13 1000, (5, 7), 9, 760⟩,
  ⟨7, Q.frac 60 10, 3, 6, Q.frac 26 1000, Q.frac 12 1000, (6, 8), 10, 920⟩]

/-- `AuraPickup`: position, radius (always 9) and a rendering pulse phase. -/
structure AuraPickup where
  pos : Vec
  radius : Q
  pulse : Q
deriving DecidableEq

/-- `AuraPickup.__init__`: random position and pulse become oracle inputs;
the radius is the constant 9. -/
def AuraPickup.init (pos : Vec) (pulse : Q) : AuraPickup :=
  ⟨pos, 9, pulse⟩

/-- `AuraPickup.update`: the pulse phase advances by 0.12. -/
def AuraPickup.update (p : AuraPickup) : AuraPickup :=
  { p with pulse := p.pulse + Q.frac 12 100 }

/-- `Bullet` from the source.  `color` is rendering-only and omitted;
`trail` is kept because `Bullet.update` maintains it. -/
structure Bullet where
  pos : Vec
  vel : Vec
  damage : ℕ
  radius : Q
  alive : Bool
  trail : List Vec
deriving DecidableEq

/-- `Bullet.__init__`. -/
def Bullet.init (pos vel : Vec) (damage : ℕ) (radius : Q) : Bullet :=
  ⟨pos, vel, damage, radius, true, []⟩

/-- `Bullet.update`: append current position to the trail (bounded at 7),
move by the velocity, and die outside a 20-pixel margin around the
screen. -/
def Bullet.update (b : Bullet) : Bullet :=
  let t0 := b.trail ++ [b.pos]
  let t := if 7 < t0.length then t0.drop 1 else t0
  let pos := b.pos + b.vel
  let alive :=
    if pos.x.lt (-20) || (WIDTH + 20).lt pos.x || pos.y.lt (-20) || (HEIGHT + 20).lt pos.y
    then false else b.alive
  { b with trail := t, pos := pos, alive := alive }

/-- `Enemy` from the source. -/
structure Enemy where
  level : ℕ
  pos : Vec
  boss : Bool
  radius : Q
  hp : ℤ
  speed : Q
  shoot_cd : ℤ
  shoot_timer : ℤ
  glow_boost : ℤ
  wobble_seed : Q
deriving DecidableEq

/-- `Enemy.__init__`: the derived stats are computed from `level` and
`boss` exactly as in the source; the initial `shoot_timer`
(`random.randint(20, shoot_cd)`) and the `wobble_seed` are oracle
inputs. -/
def Enemy.init (level : ℕ) (pos : Vec) (boss : Bool) (st0 : ℤ) (ws : Q) : Enemy :=
  { level := level
    pos := pos
    boss := boss
    radius := Q.ofNat (18 + level * 2 + (if boss then 20 else 0))
    hp := 10 + (level : ℤ) * 6 + (if boss then 80 else 0)
    speed := 1 + Q.ofNat level * Q.frac 16 100 + (if boss then Q.frac 45 100 else 0)
    shoot_cd := max 24 (120 - (level : ℤ) * 6 - (if boss then 30 else 0))
    shoot_timer := st0
    glow_boost := 0
    wobble_seed := ws }

/-- Per-enemy oracle for one tick: `moveDir` stands for the unit vector
toward the player computed by `Vector2.normalize` (or `(0, 1)` for a zero
vector), `wobble` for the `math.sin(...)` value, and `fireDir` for the
normalized direction used by `fire_enemy`. -/
structure EnemyCtl where
  moveDir : Vec
  wobble : Q
  fireDir : Vec

/-- `Enemy.update`: move by `dir * speed + perp * wobble * 0.45`, clamp to
a 10-pixel inset of the screen, decrement the shoot timer, decay the glow
(floored at 0). -/
def Enemy.update (e : Enemy) (c : EnemyCtl) : Enemy :=
  let d := c.moveDir
  let perp : Vec := ⟨-d.y, d.x⟩
  let pos := e.pos + d.scale e.speed + perp.scale (c.wobble * Q.frac 45 100)
  { e with
    pos := ⟨Q.max 10 (Q.min (WIDTH - 10) pos.x), Q.max 10 (Q.min (HEIGHT - 10) pos.y)⟩
    shoot_timer := e.shoot_timer - 1
    glow_boost := max 0 (e.glow_boost - 1) }

/-- `Enemy.can_shoot`. -/
def Enemy.can_shoot (e : Enemy) : Bool := decide (e.shoot_timer ≤ 0)

/-- `Enemy.reset_shoot`. -/
def Enemy.reset_shoot (e : Enemy) : Enemy :=
  { e with shoot_timer := e.shoot_cd, glow_boost := 12 }

/-- `Player` from the source. -/
structure Player where
  pos : Vec
  speed : Q
  lives : ℤ
  aura : ℕ
  radius : Q
  shoot_cooldown : ℤ
  shoot_timer : ℤ
deriving DecidableEq

/-- `Player.__init__(config)`. -/
def Player.init (w : WorldConfig) : Player :=
  { pos := ⟨450, 620⟩  -- (WIDTH // 2, HEIGHT - 80)
    speed := w.player_speed
    lives := w.starting_lives
    aura := 0
    radius := 18
    shoot_cooldown := 10
    shoot_timer := 0 }

/-- `Player.bullet_pattern`: the spread fired at each weapon tier, chosen
by the fixed aura thresholds 100 / 250 / 500. -/
def Player.bullet_pattern (p : Player) : List Vec :=
  if p.aura < 100 then [⟨0, -9⟩]
  else if p.aura < 250 then
    [⟨Q.frac (-13) 10, -9⟩, ⟨Q.frac 13 10, -9⟩]
  else if p.aura < 500 then
    [⟨Q.frac (-18) 10, Q.frac (-94) 10⟩, ⟨0, Q.frac (-96) 10⟩, ⟨Q.frac 18 10, Q.frac (-94) 10⟩]
  else
    [⟨-3, -11⟩, ⟨Q.frac (-14) 10, Q.frac (-118) 10⟩, ⟨0, Q.frac (-122) 10⟩,
     ⟨Q.frac 14 10, Q.frac (-118) 10⟩, ⟨3, -11⟩]

/-- `Player.update`, movement part: `dir` is the oracle for the normalized
key direction; the position is clamped to a 20-pixel inset, and the shoot
timer decrements while positive. -/
def Player.move (p : Player) (dir : Vec) : Player :=
  let pos := p.pos + dir.scale p.speed
  { p with
    pos := ⟨Q.max 20 (Q.min (WIDTH - 20) pos.x), Q.max 20 (Q.min (HEIGHT - 20) pos.y)⟩
    shoot_timer := if 0 < p.shoot_timer then p.shoot_timer - 1 else p.shoot_timer }

/-- `Player.try_shoot`. -/
def Player.try_shoot (p : Player) : Bool := decide (p.shoot_timer ≤ 0)

/-- The simulation state of `Game` (stars and the music manager are
rendering/audio collaborators and omitted). -/
structure Game where
  world_index : ℕ
  state : GameState
  state_timer : ℤ
  world : WorldConfig
  player : Player
  enemies : List Enemy
  player_bullets : List Bullet
  enemy_bullets : List Bullet
  pickups : List AuraPickup
  boss_spawned : Bool
  boss_defeated : Bool
deriving DecidableEq

/-- The oracle inputs of one tick: held keys, each random draw of
`handle_spawning`, and per-enemy geometry oracles (indexed by the enemy's
position in the list). -/
structure TickInput where
  moveDir : Vec            -- normalized key direction of `Player.update`
  fireHeld : Bool          -- keys[pygame.K_SPACE]
  pickupRoll : Bool        -- random.random() < aura_spawn_rate
  newPickupPos : Vec       -- the new pickup's random position
  newPickupPulse : Q       -- the new pickup's random pulse phase
  bossShootTimer : ℤ       -- randint(20, shoot_cd) of a spawned boss
  bossWobble : Q           -- wobble_seed of a spawned boss
  enemyRoll : Bool         -- random.random() < enemy_spawn_rate
  newEnemyLevel : ℕ        -- randint(*enemy_level_range)
  newEnemyPos : Vec        -- random point on a random screen edge
  newEnemyShootTimer : ℤ   -- randint(20, shoot_cd) of a spawned enemy
  newEnemyWobble : Q       -- wobble_seed of a spawned enemy
  enemyCtl : ℕ → EnemyCtl  -- per-enemy movement/wobble/fire oracles

/-- `Game.reset_world(keep_aura)`: re-read the world config at
`world_index` (out-of-range indexing is `none`), build a fresh `Player`
carrying the previous aura iff `keep_aura`, and clear every entity
collection and both boss flags. -/
def Game.reset_world (g : Game) (keep_aura : Bool) : Option Game :=
  match WORLD_CONFIGS[g.world_index]? with
  | none => none
  | some w =>
    let prev_aura := if keep_aura then g.player.aura else 0
    some { g with
      world := w
      player := { Player.init w with aura := prev_aura }
      enemies := []
      player_bullets := []
      enemy_bullets := []
      pickups := []
      boss_spawned := false
      boss_defeated := false }

/-- `Game.spawn_enemy`: append one non-boss enemy; its random edge
position, level, shoot timer and wobble seed are oracle inputs. -/
def Game.spawn_enemy (g : Game) (inp : TickInput) : Game :=
  { g with enemies := g.enemies ++
      [Enemy.init inp.newEnemyLevel inp.newEnemyPos false inp.newEnemyShootTimer inp.newEnemyWobble] }

/-- `Game.spawn_boss`: set `boss_spawned` and append the boss enemy with
`level = boss_level` at the fixed top-center position
`(WIDTH / 2, 80) = (450, 80)`. -/
def Game.spawn_boss (g : Game) (inp : TickInput) : Game :=
  { g with
    boss_spawned := true
    enemies := g.enemies ++
      [Enemy.init g.world.boss_level ⟨450, 80⟩ true inp.bossShootTimer inp.bossWobble] }

/-- First statement of `handle_spawning`: spawn a pickup when fewer than 8
exist and the Bernoulli roll succeeds. -/
def Game.pickupSpawnStep (g : Game) (inp : TickInput) : Game :=
  if g.pickups.length < 8 ∧ inp.pickupRoll = true
  then { g with pickups := g.pickups ++ [AuraPickup.init inp.newPickupPos inp.newPickupPulse] }
  else g

/-- Second statement of `handle_spawning`: the boss trigger. -/
def Game.bossSpawnStep (g : Game) (inp : TickInput) : Game :=
  if g.boss_spawned = false ∧ g.world.aura_required_for_boss_spawn ≤ g.player.aura
  then g.spawn_boss inp
  else g

/-- Third statement of `handle_spawning`: the regular enemy Bernoulli
spawn, suppressed whenever `boss_spawned` holds. -/
def Game.enemySpawnStep (g : Game) (inp : TickInput) : Game :=
  if g.boss_spawned = false ∧ inp.enemyRoll = true then g.spawn_enemy inp else g

/-- `Game.handle_spawning`: pickup Bernoulli spawn (capped at 8), then the
boss trigger, then the regular enemy Bernoulli spawn — the latter
suppressed once `boss_spawned` holds, including the very tick the boss
appears. -/
def Game.handle_spawning (g : Game) (inp : TickInput) : Game :=
  ((g.pickupSpawnStep inp).bossSpawnStep inp).enemySpawnStep inp

/-- `Game.fire_player`: append one bullet per pattern entry (damage 5,
radius 4, offset `(vel.x * 2.2, -player.radius)`) and reset the player's
shoot timer. -/
def Game.fire_player (g : Game) : Game :=
  { g with
    player_bullets := g.player_bullets ++
      g.player.bullet_pattern.map (fun v =>
        Bullet.init (g.player.pos + ⟨v.x * Q.frac 22 10, -g.player.radius⟩) v 5 4)
    player := { g.player with shoot_timer := g.player.shoot_cooldown } }

/-- The bullet built by `Game.fire_enemy`: damage 1, radius 5 for a boss
and 4 otherwise, spawned half a radius along the (oracled) direction to
the player, with speed `3 + level * 0.35 (+ 1.3 if boss)`. -/
def enemyBullet (c : EnemyCtl) (e : Enemy) : Bullet :=
  Bullet.init (e.pos + c.fireDir.scale (e.radius * Q.frac 5 10))
    (c.fireDir.scale (3 + Q.ofNat e.level * Q.frac 35 100 + (if e.boss then Q.frac 13 10 else 0)))
    1 (if e.boss then 5 else 4)

/-- The enemy loop of `update_playing`: each enemy is updated in place,
then fires (appending to the enemy-bullet list, in list order) and resets
its shoot timer when `can_shoot`. -/
def stepEnemies (ctl : ℕ → EnemyCtl) : ℕ → List Enemy → List Enemy × List Bullet
  | _, [] => ([], [])
  | i, e :: rest =>
    let e1 := e.update (ctl i)
    let e2 := if e1.can_shoot then e1.reset_shoot else e1
    let fired := if e1.can_shoot then [enemyBullet (ctl i) e1] else []
    let r := stepEnemies ctl (i + 1) rest
    (e2 :: r.1, fired ++ r.2)

/-- Pickup phase of `handle_collisions`: every pickup overlapping the
player is removed, each granting one `aura_gain_per_pickup`.  Returns the
surviving pickups and the number collected. -/
def collectPickups (ppos : Vec) (prad : Q) : List AuraPickup → List AuraPickup × ℕ
  | [] => ([], 0)
  | pk :: rest =>
    let r := collectPickups ppos prad rest
    if circleHit pk.pos ppos (pk.radius + prad)
    then (r.1, r.2 + 1)
    else (pk :: r.1, r.2)

/-- Pickup phase of `handle_collisions` at the `Game` level. -/
def Game.pickupsPhase (g : Game) : Game :=
  let r := collectPickups g.player.pos g.player.radius g.pickups
  { g with
    pickups := r.1
    player := { g.player with aura := g.player.aura + g.world.aura_gain_per_pickup * r.2 } }

/-- Aura granted for killing `e`: `10 + level * 4 + (45 if boss)`. -/
def killReward (e : Enemy) : ℕ :=
  10 + e.level * 4 + (if e.boss then 45 else 0)

/-- Result of scanning one player bullet along the enemy list. -/
structure ScanResult where
  enemies : List Enemy
  consumed : Bool
  auraGain : ℕ
  bossKilled : Bool
deriving DecidableEq

/-- Inner loop of the player-bullet phase: the bullet tests enemies in
list order; on the first overlap the enemy loses `damage` hp, the bullet
is consumed and the scan stops (`break`); an enemy at hp ≤ 0 is removed
and yields `killReward` (and `bossKilled` if it was the boss). -/
def bulletHitScan (b : Bullet) : List Enemy → ScanResult
  | [] => ⟨[], false, 0, false⟩
  | e :: rest =>
    if circleHit e.pos b.pos (e.radius + b.radius) then
      if e.hp - (b.damage : ℤ) ≤ 0
      then ⟨rest, true, killReward e, e.boss⟩
      else ⟨{ e with hp := e.hp - (b.damage : ℤ) } :: rest, true, 0, false⟩
    else
      let r := bulletHitScan b rest
      ⟨e :: r.enemies, r.consumed, r.auraGain, r.bossKilled⟩

/-- Outer loop of the player-bullet phase: each bullet in list order scans
the current enemy list; a consumed bullet is marked dead but stays in the
bullet list (it is filtered out only at the start of the next tick). -/
def playerBulletsScan : List Bullet → List Enemy → List Bullet × List Enemy × ℕ × Bool
  | [], es => ([], es, 0, false)
  | b :: bs, es =>
    let r := bulletHitScan b es
    let b1 := if r.consumed then { b with alive := false } else b
    let rest := playerBulletsScan bs r.enemies
    (b1 :: rest.1, rest.2.1, r.auraGain + rest.2.2.1, r.bossKilled || rest.2.2.2)

/-- Player-bullets-vs-enemies phase of `handle_collisions` at the `Game`
level: applies the accumulated aura gain and sets `boss_defeated` if a
boss was killed. -/
def Game.playerBulletsPhase (g : Game) : Game :=
  let r := playerBulletsScan g.player_bullets g.enemies
  { g with
    player_bullets := r.1
    enemies := r.2.1
    player := { g.player with aura := g.player.aura + r.2.2.1 }
    boss_defeated := g.boss_defeated || r.2.2.2 }

/-- Enemy-bullets-vs-player phase: each overlapping bullet is marked dead
and subtracts its damage from `lives`; whenever `lives ≤ 0` afterwards the
state is set to `GAME_OVER`.  The loop visits every bullet (it does not
stop at the game-over transition). -/
def enemyBulletsScan (ppos : Vec) (prad : Q) :
    List Bullet → ℤ → GameState → List Bullet × ℤ × GameState
  | [], lives, st => ([], lives, st)
  | b :: bs, lives, st =>
    if circleHit b.pos ppos (b.radius + prad) then
      let lives1 := lives - (b.damage : ℤ)
      let st1 := if lives1 ≤ 0 then GameState.GAME_OVER else st
      let r := enemyBulletsScan ppos prad bs lives1 st1
      ({ b with alive := false } :: r.1, r.2)
    else
      let r := enemyBulletsScan ppos prad bs lives st
      (b :: r.1, r.2)

/-- Enemy-bullets-vs-player phase at the `Game` level. -/
def Game.enemyBulletsPhase (g : Game) : Game :=
  let r := enemyBulletsScan g.player.pos g.player.radius g.enemy_bullets g.player.lives g.state
  { g with
    enemy_bullets := r.1
    player := { g.player with lives := r.2.1 }
    state := r.2.2 }

/-- `Game.handle_collisions`: pickups, then player bullets vs enemies,
then enemy bullets vs player — in the source's order. -/
def Game.handle_collisions (g : Game) : Game :=
  g.pickupsPhase.playerBulletsPhase.enemyBulletsPhase

/-- Steps 1–8 of `update_playing` (everything before
`handle_collisions`): player movement, spawning, player fire, pickup
pulses, the enemy update/fire loop, bullet motion, and the liveness
filter of both bullet lists. -/
def Game.movePhase (g : Game) (inp : TickInput) : Game :=
  let g1 := { g with player := g.player.move inp.moveDir }
  let g2 := g1.handle_spawning inp
  let g3 := if inp.fireHeld && g2.player.try_shoot then g2.fire_player else g2
  let g4 := { g3 with pickups := g3.pickups.map AuraPickup.update }
  let se := stepEnemies inp.enemyCtl 0 g4.enemies
  let g5 := { g4 with enemies := se.1, enemy_bullets := g4.enemy_bullets ++ se.2 }
  let g6 := { g5 with
    player_bullets := g5.player_bullets.map Bullet.update
    enemy_bullets := g5.enemy_bullets.map Bullet.update }
  { g6 with
    player_bullets := g6.player_bullets.filter (fun b => b.alive)
    enemy_bullets := g6.enemy_bullets.filter (fun b => b.alive) }

/-- End-of-tick check of `update_playing`: if the boss was spawned and
defeated and the state is still `PLAYING`, enter `WORLD_COMPLETE` with a
2-second countdown (`FPS * 2` ticks). -/
def Game.bossCheck (g : Game) : Game :=
  if g.boss_spawned = true ∧ g.boss_defeated = true ∧ g.state = GameState.PLAYING
  then { g with state := GameState.WORLD_COMPLETE, state_timer := FPS * 2 }
  else g

/-- `Game.update_playing`. -/
def Game.update_playing (g : Game) (inp : TickInput) : Game :=
  ((g.movePhase inp).handle_collisions).bossCheck

/-- `Game.update` (one tick; the music update is audio-only and omitted,
the star updates of the `WORLD_COMPLETE` branch are rendering-only and
omitted).  `none` would signal an out-of-range `WORLD_CONFIGS` access
inside `reset_world`. -/
def Game.update (g : Game) (inp : TickInput) : Option Game :=
  match g.state with
  | GameState.PLAYING => some (g.update_playing inp)
  | GameState.WORLD_COMPLETE =>
    let t := g.state_timer - 1
    if t ≤ 0 then
      let wi := g.world_index + 1
      if WORLD_CONFIGS.length ≤ wi
      then some { g with state_timer := t, world_index := wi, state := GameState.GAME_OVER }
      else Game.reset_world
        { g with state_timer := t, world_index := wi, state := GameState.PLAYING } true
    else some { g with state_timer := t }
  | GameState.GAME_OVER => some g

/-- The `R`-key restart handling of `Game.run` (only reachable in
`GAME_OVER`): reset `world_index` to 0, return to `PLAYING`, and
`reset_world` without keeping aura. -/
def Game.restart (g : Game) : Option Game :=
  Game.reset_world { g with world_index := 0, state := GameState.PLAYING } false

/-- `Game.__init__`, simulation part: world 0, `PLAYING`, fresh player,
empty collections, boss flags down. -/
def Game.mkInitial : Option Game :=
  match WORLD_CONFIGS[0]? with
  | none => none
  | some w => some
    { world_index := 0
      state := GameState.PLAYING
      state_timer := 0
      world := w
      player := Player.init w
      enemies := []
      player_bullets := []
      enemy_bullets := []
      pickups := []
      boss_spawned := false
      boss_defeated := false }

/-! ### Concrete states used to evaluate the model on explicit inputs -/

/-- An inert tick input: no keys held, every Bernoulli roll fails, every
geometry oracle returns a zero/unit vector. -/
def inpZero : TickInput :=
  { moveDir := ⟨0, 0⟩, fireHeld := false, pickupRoll := false
    newPickupPos := ⟨0, 0⟩, newPickupPulse := 0
    bossShootTimer := 0, bossWobble := 0
    enemyRoll := false, newEnemyLevel := 0, newEnemyPos := ⟨0, 0⟩
    newEnemyShootTimer := 0, newEnemyWobble := 0
    enemyCtl := fun _ => ⟨⟨0, 0⟩, 0, ⟨0, 1⟩⟩ }

/-- The first entry of `WORLD_CONFIGS`. -/
def w0 : WorldConfig := ⟨1, Q.frac 48 10, 6, 12, Q.frac 12 1000, Q.frac 18 1000, (1, 2), 4, 220⟩

/-- A player at the spawn position with one life left. -/
def pl1 : Player := ⟨⟨450, 620⟩, Q.frac 48 10, 1, 0, 18, 10, 0⟩

/-- A player with three lives and some aura. -/
def pl3 : Player := ⟨⟨450, 620⟩, Q.frac 48 10, 3, 57, 18, 10, 0⟩

/-- A stationary enemy bullet sitting on the player's position. -/
def eb : Bullet := ⟨⟨450, 620⟩, ⟨0, 0⟩, 1, 4, true, []⟩

/-- A level-2 enemy far away from the player, not ready to shoot. -/
def farEnemy : Enemy := Enemy.init 2 ⟨100, 100⟩ false 50 0

/-- Playing state, one life, two enemy bullets on the player: one tick
drives `lives` to `-1`. -/
def gC6 : Game := ⟨0, GameState.PLAYING, 0, w0, pl1, [], [], [eb, eb], [], true, false⟩

/-- Playing state, one life, one far enemy and one enemy bullet on the
player: one tick reaches `GAME_OVER` with the enemy and the spent bullet
still stored. -/
def gC4 : Game := ⟨0, GameState.PLAYING, 0, w0, pl1, [farEnemy], [], [eb], [], true, false⟩

/-- World-complete state of the last world with the countdown expiring:
one tick reaches the full-victory `GAME_OVER` with 3 lives left. -/
def gVic : Game := ⟨6, GameState.WORLD_COMPLETE, 1, w0, pl3, [], [], [], [], true, true⟩

/-- World-complete state mid-countdown (timer 5). -/
def gWC : Game := ⟨0, GameState.WORLD_COMPLETE, 5, w0, pl3, [farEnemy], [], [eb], [], true, true⟩

/-- World-complete state of world 0 with the countdown expiring. -/
def gWC1 : Game := ⟨0, GameState.WORLD_COMPLETE, 1, w0, pl3, [farEnemy], [eb], [eb], [], true, true⟩

/-- Playing state that has just reached the boss-spawn aura threshold. -/
def gBoss : Game :=
  ⟨0, GameState.PLAYING, 0, w0, { pl3 with aura := 220, lives := 6 }, [], [], [], [], false, false⟩

/-- An enemy sitting on the origin, in reach of `pb`. -/
def nearEnemy : Enemy := Enemy.init 1 ⟨0, 0⟩ false 50 0

/-- A weak enemy (1 hp left) sitting on the origin. -/
def weakEnemy : Enemy := { nearEnemy with hp := 1 }

/-- A player bullet at the origin. -/
def pb : Bullet := ⟨⟨0, 0⟩, ⟨0, -9⟩, 5, 4, true, []⟩

/-! ### Helper lemmas: which fields each phase leaves untouched -/

theorem move_aura (p : Player) (d : Vec) : (p.move d).aura = p.aura := rfl

theorem move_lives (p : Player) (d : Vec) : (p.move d).lives = p.lives := rfl

theorem pickupSpawnStep_player (g : Game) (inp : TickInput) :
    (g.pickupSpawnStep inp).player = g.player := by
  unfold Game.pickupSpawnStep; split <;> rfl

theorem pickupSpawnStep_state (g : Game) (inp : TickInput) :
    (g.pickupSpawnStep inp).state = g.state := by
  unfold Game.pickupSpawnStep; split <;> rfl

theorem pickupSpawnStep_world_index (g : Game) (inp : TickInput) :
    (g.pickupSpawnStep inp).world_index = g.world_index := by
  unfold Game.pickupSpawnStep; split <;> rfl

theorem pickupSpawnStep_world (g : Game) (inp : TickInput) :
    (g.pickupSpawnStep inp).world = g.world := by
  unfold Game.pickupSpawnStep; split <;> rfl

theorem pickupSpawnStep_boss_spawned (g : Game) (inp : TickInput) :
    (g.pickupSpawnStep inp).boss_spawned = g.boss_spawned := by
  unfold Game.pickupSpawnStep; split <;> rfl

theorem pickupSpawnStep_enemies (g : Game) (inp : TickInput) :
    (g.pickupSpawnStep inp).enemies = g.enemies := by
  unfold Game.pickupSpawnStep; split <;> rfl

theorem bossSpawnStep_player (g : Game) (inp : TickInput) :
    (g.bossSpawnStep inp).player = g.player := by
  unfold Game.bossSpawnStep Game.spawn_boss; split <;> rfl

theorem bossSpawnStep_state (g : Game) (inp : TickInput) :
    (g.bossSpawnStep inp).state = g.state := by
  unfold Game.bossSpawnStep Game.spawn_boss; split <;> rfl

theorem bossSpawnStep_world_index (g : Game) (inp : TickInput) :
    (g.bossSpawnStep inp).world_index = g.world_index := by
  unfold Game.bossSpawnStep Game.spawn_boss; split <;> rfl

theorem enemySpawnStep_player (g : Game) (inp : TickInput) :
    (g.enemySpawnStep inp).player = g.player := by
  unfold Game.enemySpawnStep Game.spawn_enemy; split <;> rfl

theorem enemySpawnStep_state (g : Game) (inp : TickInput) :
    (g.enemySpawnStep inp).state = g.state := by
  unfold Game.enemySpawnStep Game.spawn_enemy; split <;> rfl

theorem enemySpawnStep_world_index (g : Game) (inp : TickInput) :
    (g.enemySpawnStep inp).world_index = g.world_index := by
  unfold Game.enemySpawnStep Game.spawn_enemy; split <;> rfl

theorem enemySpawnStep_boss_spawned (g : Game) (inp : TickInput) :
    (g.enemySpawnStep inp).boss_spawned = g.boss_spawned := by
  unfold Game.enemySpawnStep Game.spawn_enemy; split <;> rfl

theorem handle_spawning_player (g : Game) (inp : TickInput) :
    (g.handle_spawning inp).player = g.player := by
  unfold Game.handle_spawning
  rw [enemySpawnStep_player, bossSpawnStep_player, pickupSpawnStep_player]

theorem handle_spawning_state (g : Game) (inp : TickInput) :
    (g.handle_spawning inp).state = g.state := by
  unfold Game.handle_spawning
  rw [enemySpawnStep_state, bossSpawnStep_state, pickupSpawnStep_state]

theorem handle_spawning_world_index (g : Game) (inp : TickInput) :
    (g.handle_spawning inp).world_index = g.world_index := by
  unfold Game.handle_spawning
  rw [enemySpawnStep_world_index, bossSpawnStep_world_index, pickupSpawnStep_world_index]

theorem fire_player_aura (g : Game) : g.fire_player.player.aura = g.player.aura := rfl

theorem fire_player_lives (g : Game) : g.fire_player.player.lives = g.player.lives := rfl

theorem fire_player_state (g : Game) : g.fire_player.state = g.state := rfl

theorem fire_player_world_index (g : Game) : g.fire_player.world_index = g.world_index := rfl

theorem movePhase_aura (g : Game) (inp : TickInput) :
    (g.movePhase inp).player.aura = g.player.aura := by
  simp only [Game.movePhase]
  split
  · rw [fire_player_aura, handle_spawning_player, move_aura]
  · rw [handle_spawning_player, move_aura]

theorem movePhase_lives (g : Game) (inp : TickInput) :
    (g.movePhase inp).player.lives = g.player.lives := by
  simp only [Game.movePhase]
  split
  · rw [fire_player_lives, handle_spawning_player, move_lives]
  · rw [handle_spawning_player, move_lives]

theorem movePhase_state (g : Game) (inp : TickInput) :
    (g.movePhase inp).state = g.state := by
  simp only [Game.movePhase]
  split
  · rw [fire_player_state, handle_spawning_state]
  · rw [handle_spawning_state]

theorem movePhase_world_index (g : Game) (inp : TickInput) :
    (g.movePhase inp).world_index = g.world_index := by
  simp only [Game.movePhase]
  split
  · rw [fire_player_world_index, handle_spawning_world_index]
  · rw [handle_spawning_world_index]

theorem pickupsPhase_lives (g : Game) : g.pickupsPhase.player.lives = g.player.lives := rfl

theorem pickupsPhase_state (g : Game) : g.pickupsPhase.state = g.state := rfl

theorem pickupsPhase_world_index (g : Game) : g.pickupsPhase.world_index = g.world_index := rfl

theorem pickupsPhase_enemies (g : Game) : g.pickupsPhase.enemies = g.enemies := rfl

theorem pickupsPhase_enemy_bullets (g : Game) :
    g.pickupsPhase.enemy_bullets = g.enemy_bullets := rfl

theorem pickupsPhase_aura_le (g : Game) :
    g.player.aura ≤ g.pickupsPhase.player.aura := Nat.le_add_right _ _

theorem playerBulletsPhase_lives (g : Game) :
    g.playerBulletsPhase.player.lives = g.player.lives := rfl

theorem playerBulletsPhase_state (g : Game) : g.playerBulletsPhase.state = g.state := rfl

theorem playerBulletsPhase_world_index (g : Game) :
    g.playerBulletsPhase.world_index = g.world_index := rfl

theorem playerBulletsPhase_enemy_bullets (g : Game) :
    g.playerBulletsPhase.enemy_bullets = g.enemy_bullets := rfl

theorem playerBulletsPhase_aura_le (g : Game) :
    g.player.aura ≤ g.playerBulletsPhase.player.aura := Nat.le_add_right _ _

theorem enemyBulletsPhase_aura (g : Game) :
    g.enemyBulletsPhase.player.aura = g.player.aura := rfl

theorem enemyBulletsPhase_enemies (g : Game) :
    g.enemyBulletsPhase.enemies = g.enemies := rfl

theorem enemyBulletsPhase_world_index (g : Game) :
    g.enemyBulletsPhase.world_index = g.world_index := rfl

theorem bossCheck_player (g : Game) : g.bossCheck.player = g.player := by
  unfold Game.bossCheck; split <;> rfl

theorem bossCheck_enemies (g : Game) : g.bossCheck.enemies = g.enemies := by
  unfold Game.bossCheck; split <;> rfl

theorem bossCheck_enemy_bullets (g : Game) : g.bossCheck.enemy_bullets = g.enemy_bullets := by
  unfold Game.bossCheck; split <;> rfl

theorem bossCheck_world_index (g : Game) : g.bossCheck.world_index = g.world_index := by
  unfold Game.bossCheck; split <;> rfl

theorem bossCheck_state_game_over (g : Game) (h : g.state = GameState.GAME_OVER) :
    g.bossCheck.state = GameState.GAME_OVER := by
  unfold Game.bossCheck
  split
  · next hc => rw [h] at hc; exact absurd hc.2.2 (by simp)
  · exact h

theorem update_eq_playing (g : Game) (inp : TickInput) (h : g.state = GameState.PLAYING) :
    g.update inp = some (g.update_playing inp) := by
  simp only [Game.update, h]

theorem enemyBulletsScan_spec (ppos : Vec) (prad : Q) (bs : List Bullet) (lives : ℤ)
    (st : GameState) (h : lives ≤ 0 → st = GameState.GAME_OVER) :
    ((enemyBulletsScan ppos prad bs lives st).2.1 ≤ 0 →
      (enemyBulletsScan ppos prad bs lives st).2.2 = GameState.GAME_OVER) ∧
    (enemyBulletsScan ppos prad bs lives st).2.1 ≤ lives ∧
    (enemyBulletsScan ppos prad bs lives st).1.length = bs.length := by
  induction bs generalizing lives st with
  | nil => exact ⟨h, le_refl _, rfl⟩
  | cons b bs ih =>
    simp only [enemyBulletsScan]
    split
    · have h1 : lives - (b.damage : ℤ) ≤ 0 →
          (if lives - (b.damage : ℤ) ≤ 0 then GameState.GAME_OVER else st) =
            GameState.GAME_OVER := fun hl => if_pos hl
      have hrec := ih (lives - (b.damage : ℤ))
        (if lives - (b.damage : ℤ) ≤ 0 then GameState.GAME_OVER else st) h1
      refine ⟨hrec.1, le_trans hrec.2.1 (by omega), ?_⟩
      simp only [List.length_cons, hrec.2.2]
    · have hrec := ih lives st h
      refine ⟨hrec.1, hrec.2.1, ?_⟩
      simp only [List.length_cons, hrec.2.2]

/-! ### Claim theorems -/

/-- C5: player aura is monotonically non-decreasing across any tick of the
simulation (`update` never decreases it), and `reset_world keep_aura=true`
carries the aura over unchanged; it is set to 0 only by the explicit
restart, which is `reset_world keep_aura=false`. -/
theorem c5_aura_monotone (g : Game) (inp : TickInput) :
    (∀ g', g.update inp = some g' → g.player.aura ≤ g'.player.aura) ∧
    (∀ g', g.reset_world true = some g' → g'.player.aura = g.player.aura) ∧
    (∀ g', g.restart = some g' → g'.player.aura = 0) := by
  refine ⟨?_, ?_, ?_⟩
  · intro g' h
    cases hst : g.state with
    | PLAYING =>
      rw [update_eq_playing g inp hst] at h
      obtain rfl := Option.some.inj h
      show g.player.aura ≤ (((g.movePhase inp).handle_collisions).bossCheck).player.aura
      rw [bossCheck_player]
      unfold Game.handle_collisions
      rw [enemyBulletsPhase_aura]
      calc g.player.aura = (g.movePhase inp).player.aura := (movePhase_aura g inp).symm
        _ ≤ (g.movePhase inp).pickupsPhase.player.aura := pickupsPhase_aura_le _
        _ ≤ (g.movePhase inp).pickupsPhase.playerBulletsPhase.player.aura :=
            playerBulletsPhase_aura_le _
    | WORLD_COMPLETE =>
      simp only [Game.update, hst] at h
      split at h
      · split at h
        · obtain rfl := Option.some.inj h; exact le_refl _
        · unfold Game.reset_world at h
          cases hw : WORLD_CONFIGS[g.world_index + 1]? with
          | none => rw [hw] at h; cases h
          | some w =>
            rw [hw] at h
            obtain rfl := Option.some.inj h
            exact le_refl _
      · obtain rfl := Option.some.inj h; exact le_refl _
    | GAME_OVER =>
      simp only [Game.update, hst] at h
      obtain rfl := Option.some.inj h
      exact le_refl _
  · intro g' h
    unfold Game.reset_world at h
    cases hw : WORLD_CONFIGS[g.world_index]? with
    | none => rw [hw] at h; cases h
    | some w => rw [hw] at h; obtain rfl := Option.some.inj h; rfl
  · intro g' h
    unfold Game.restart Game.reset_world at h
    obtain rfl := Option.some.inj h
    rfl

/-- Witness for C5 on a concrete playing state and tick input. -/
theorem c5_aura_monotone_witness :
    ∃ g', gBoss.update inpZero = some g' ∧ gBoss.player.aura ≤ g'.player.aura := by
  refine ⟨(gBoss.update_playing inpZero), update_eq_playing gBoss inpZero rfl, ?_⟩
  exact (c5_aura_monotone gBoss inpZero).1 _ (update_eq_playing gBoss inpZero rfl)

/-- C9: every `WORLD_CONFIGS[world_index]` access is in range: one tick
(`update`) never fails, the game-over restart never fails, and the
constructor's access at index 0 never fails — even though `world_index`
reaches the table length on full victory (that path sets `GAME_OVER`
without calling `reset_world`, and restart zeroes `world_index` first). -/
theorem c9_index_safety (g : Game) (inp : TickInput) :
    (g.update inp).isSome = true ∧ g.restart.isSome = true ∧
      Game.mkInitial.isSome = true := by
  refine ⟨?_, rfl, rfl⟩
  cases hst : g.state with
  | PLAYING => rw [update_eq_playing g inp hst]; rfl
  | GAME_OVER => simp only [Game.update, hst]; rfl
  | WORLD_COMPLETE =>
    simp only [Game.update, hst]
    split
    · split
      · rfl
      · next hlen =>
        unfold Game.reset_world
        have hlt : g.world_index + 1 < WORLD_CONFIGS.length := by omega
        rw [List.getElem?_eq_getElem hlt]
        rfl
    · rfl

/-- C10: while the state is `WORLD_COMPLETE` with the countdown not yet
expiring, or `GAME_OVER`, a tick changes no simulation state (beyond the
omitted star background and music): player, enemies, both bullet lists,
pickups, boss flags and `world_index` are all unchanged. -/
theorem c10_frozen_states (g : Game) (inp : TickInput)
    (h : (g.state = GameState.WORLD_COMPLETE ∧ 1 < g.state_timer) ∨
      g.state = GameState.GAME_OVER) :
    ∃ g', g.update inp = some g' ∧ g'.player = g.player ∧ g'.enemies = g.enemies ∧
      g'.player_bullets = g.player_bullets ∧ g'.enemy_bullets = g.enemy_bullets ∧
      g'.pickups = g.pickups ∧ g'.boss_spawned = g.boss_spawned ∧
      g'.boss_defeated = g.boss_defeated ∧ g'.world_index = g.world_index := by
  rcases h with ⟨hst, ht⟩ | hst
  · refine ⟨{ g with state_timer := g.state_timer - 1 }, ?_, rfl, rfl, rfl, rfl, rfl, rfl,
      rfl, rfl⟩
    simp only [Game.update, hst]
    rw [if_neg (by omega)]
  · exact ⟨g, by simp only [Game.update, hst], rfl, rfl, rfl, rfl, rfl, rfl, rfl, rfl⟩

/-- Witness for C10: a mid-countdown `WORLD_COMPLETE` state with live
entities is left frozen by a tick. -/
theorem c10_frozen_states_witness :
    ∃ g', gWC.update inpZero = some g' ∧ g'.player = gWC.player ∧
      g'.enemies = gWC.enemies ∧ g'.player_bullets = gWC.player_bullets ∧
      g'.enemy_bullets = gWC.enemy_bullets ∧ g'.pickups = gWC.pickups ∧
      g'.boss_spawned = gWC.boss_spawned ∧ g'.boss_defeated = gWC.boss_defeated ∧
      g'.world_index = gWC.world_index :=
  c10_frozen_states gWC inpZero (Or.inl ⟨rfl, by decide⟩)

/-- C8: the restart command yields `world_index = 0`, state `PLAYING`,
aura 0, `lives = starting_lives` of the first world config (6), empty
enemy/bullet/pickup collections, and both boss flags false. -/
theorem c8_restart_resets (g : Game) :
    ∃ g', g.restart = some g' ∧ g'.world_index = 0 ∧ g'.state = GameState.PLAYING ∧
      g'.player.aura = 0 ∧
      (∃ w, WORLD_CONFIGS[0]? = some w ∧ g'.player.lives = w.starting_lives ∧
        g'.world = w) ∧
      g'.player.lives = 6 ∧ g'.enemies = [] ∧ g'.player_bullets = [] ∧
      g'.enemy_bullets = [] ∧ g'.pickups = [] ∧ g'.boss_spawned = false ∧
      g'.boss_defeated = false := by
  exact ⟨_, rfl, rfl, rfl, rfl, ⟨_, rfl, rfl, rfl⟩, rfl, rfl, rfl, rfl, rfl, rfl, rfl⟩

/-- C1: the world state machine.  (1) In a `PLAYING` tick whose collision
resolution ends with `boss_spawned`, `boss_defeated` and the state still
`PLAYING`, the tick enters `WORLD_COMPLETE` and starts the fixed
countdown `FPS * 2 = 120` (2 seconds at 60 FPS).  (2) A `PLAYING` tick
never changes `world_index` (so a lives-depleted game over keeps it below
the table length).  (3) A `WORLD_COMPLETE` tick with countdown not yet
expiring only decrements it.  (4) When the countdown expires with more
worlds remaining, `world_index` is incremented and play resumes with all
enemies/bullets/pickups cleared and a fresh `Player` carrying the
pre-transition aura.  (5) When the countdown expires with the table
exhausted, the state becomes `GAME_OVER` with
`world_index = WORLD_CONFIGS.length` (full victory). -/
theorem c1_world_transitions (g : Game) (inp : TickInput) :
    (g.state = GameState.PLAYING →
      ((g.movePhase inp).handle_collisions.boss_spawned = true →
        (g.movePhase inp).handle_collisions.boss_defeated = true →
        (g.movePhase inp).handle_collisions.state = GameState.PLAYING →
        g.update inp = some { (g.movePhase inp).handle_collisions with
            state := GameState.WORLD_COMPLETE,
            state_timer := FPS * 2 } ∧ FPS * 2 = 120)) ∧
    (g.state = GameState.PLAYING → ∀ g', g.update inp = some g' →
      g'.world_index = g.world_index) ∧
    (g.state = GameState.WORLD_COMPLETE → 1 < g.state_timer →
      g.update inp = some { g with state_timer := g.state_timer - 1 }) ∧
    (g.state = GameState.WORLD_COMPLETE → g.state_timer ≤ 1 →
      g.world_index + 1 < WORLD_CONFIGS.length →
      ∃ w g', WORLD_CONFIGS[g.world_index + 1]? = some w ∧ g.update inp = some g' ∧
        g'.state = GameState.PLAYING ∧ g'.world_index = g.world_index + 1 ∧
        g'.world = w ∧ g'.player = { (Player.init w) with aura := g.player.aura } ∧
        g'.player.aura = g.player.aura ∧ g'.enemies = [] ∧ g'.player_bullets = [] ∧
        g'.enemy_bullets = [] ∧ g'.pickups = [] ∧ g'.boss_spawned = false ∧
        g'.boss_defeated = false) ∧
    (g.state = GameState.WORLD_COMPLETE → g.state_timer ≤ 1 →
      g.world_index < WORLD_CONFIGS.length →
      WORLD_CONFIGS.length ≤ g.world_index + 1 →
      g.update inp = some { g with
          state_timer := g.state_timer - 1,
          world_index := g.world_index + 1,
          state := GameState.GAME_OVER } ∧
      g.world_index + 1 = WORLD_CONFIGS.length) := by
  refine ⟨?_, ?_, ?_, ?_, ?_⟩
  · intro hst h1 h2 h3
    rw [update_eq_playing g inp hst]
    refine ⟨?_, rfl⟩
    show some ((g.movePhase inp).handle_collisions.bossCheck) = _
    unfold Game.bossCheck
    rw [if_pos ⟨h1, h2, h3⟩]
  · intro hst g' h
    rw [update_eq_playing g inp hst] at h
    obtain rfl := Option.some.inj h
    show ((g.movePhase inp).handle_collisions.bossCheck).world_index = g.world_index
    rw [bossCheck_world_index]
    unfold Game.handle_collisions
    rw [enemyBulletsPhase_world_index, playerBulletsPhase_world_index,
      pickupsPhase_world_index, movePhase_world_index]
  · intro hst ht
    simp only [Game.update, hst]
    rw [if_neg (by omega)]
  · intro hst ht hlt
    have hw := List.getElem?_eq_getElem hlt
    refine ⟨WORLD_CONFIGS[g.world_index + 1], ?_⟩
    simp only [Game.update, hst]
    rw [if_pos (by omega : g.state_timer - 1 ≤ 0),
      if_neg (by omega : ¬ WORLD_CONFIGS.length ≤ g.world_index + 1)]
    unfold Game.reset_world
    simp only [hw]
    exact ⟨_, trivial, rfl, rfl, rfl, rfl, rfl, rfl, rfl, rfl, rfl, rfl, rfl, rfl⟩
  · intro hst ht hlt hge
    simp only [Game.update, hst]
    rw [if_pos (by omega : g.state_timer - 1 ≤ 0), if_pos hge]
    exact ⟨rfl, by omega⟩

/-- Witness for C1 on a concrete expiring `WORLD_COMPLETE` state of world
index 0: advancing to world index 1 with cleared entities and preserved
aura. -/
theorem c1_world_transitions_witness :
    ∃ w g', WORLD_CONFIGS[gWC1.world_index + 1]? = some w ∧
      gWC1.update inpZero = some g' ∧ g'.state = GameState.PLAYING ∧
      g'.world_index = gWC1.world_index + 1 ∧ g'.world = w ∧
      g'.player = { (Player.init w) with aura := gWC1.player.aura } ∧
      g'.player.aura = gWC1.player.aura ∧ g'.enemies = [] ∧
      g'.player_bullets = [] ∧ g'.enemy_bullets = [] ∧ g'.pickups = [] ∧
      g'.boss_spawned = false ∧ g'.boss_defeated = false :=
  (c1_world_transitions gWC1 inpZero).2.2.2.1 rfl (by decide) (by decide)

theorem bulletHitScan_skip_misses (b : Bullet) (pre rest : List Enemy)
    (hpre : ∀ e' ∈ pre, circleHit e'.pos b.pos (e'.radius + b.radius) = false) :
    bulletHitScan b (pre ++ rest) =
      ⟨pre ++ (bulletHitScan b rest).enemies, (bulletHitScan b rest).consumed,
       (bulletHitScan b rest).auraGain, (bulletHitScan b rest).bossKilled⟩ := by
  induction pre with
  | nil => rfl
  | cons a pre ih =>
    have ha := hpre a (List.mem_cons_self a pre)
    simp only [List.cons_append, bulletHitScan, ha, Bool.false_eq_true, if_false,
      List.append_eq]
    rw [ih (fun e' h => hpre e' (List.mem_cons_of_mem a h))]

/-- C2: when a player bullet registers a hit — its first colliding enemy
in iteration order, after a miss-only prefix — the enemy loses exactly
`bullet.damage` hp and the bullet is consumed (`alive := false` while
staying in the list); the enemy is removed iff its resulting hp ≤ 0, in
which case the aura gain is exactly `10 + level * 4 (+ 45 if boss)` and
`bossKilled` (which sets `boss_defeated`) holds iff the enemy is the
boss. -/
theorem c2_hit_resolution (b : Bullet) (pre post : List Enemy) (e : Enemy)
    (hpre : ∀ e' ∈ pre, circleHit e'.pos b.pos (e'.radius + b.radius) = false)
    (he : circleHit e.pos b.pos (e.radius + b.radius) = true) :
    (bulletHitScan b (pre ++ e :: post)).consumed = true ∧
    (playerBulletsScan [b] (pre ++ e :: post)).1 = [{ b with alive := false }] ∧
    (playerBulletsScan [b] (pre ++ e :: post)).2.1 =
      (bulletHitScan b (pre ++ e :: post)).enemies ∧
    (playerBulletsScan [b] (pre ++ e :: post)).2.2.1 =
      (bulletHitScan b (pre ++ e :: post)).auraGain ∧
    (playerBulletsScan [b] (pre ++ e :: post)).2.2.2 =
      (bulletHitScan b (pre ++ e :: post)).bossKilled ∧
    (e.hp - (b.damage : ℤ) ≤ 0 →
      (bulletHitScan b (pre ++ e :: post)).enemies = pre ++ post ∧
      (bulletHitScan b (pre ++ e :: post)).auraGain =
        10 + e.level * 4 + (if e.boss then 45 else 0) ∧
      (bulletHitScan b (pre ++ e :: post)).bossKilled = e.boss) ∧
    (0 < e.hp - (b.damage : ℤ) →
      (bulletHitScan b (pre ++ e :: post)).enemies =
        pre ++ { e with hp := e.hp - (b.damage : ℤ) } :: post ∧
      (bulletHitScan b (pre ++ e :: post)).auraGain = 0 ∧
      (bulletHitScan b (pre ++ e :: post)).bossKilled = false) := by
  have hL := bulletHitScan_skip_misses b pre (e :: post) hpre
  have hcons : (bulletHitScan b (pre ++ e :: post)).consumed =
      (bulletHitScan b (e :: post)).consumed := by rw [hL]
  have hen : (bulletHitScan b (pre ++ e :: post)).enemies =
      pre ++ (bulletHitScan b (e :: post)).enemies := by rw [hL]
  have hau : (bulletHitScan b (pre ++ e :: post)).auraGain =
      (bulletHitScan b (e :: post)).auraGain := by rw [hL]
  have hbk : (bulletHitScan b (pre ++ e :: post)).bossKilled =
      (bulletHitScan b (e :: post)).bossKilled := by rw [hL]
  have hconsumed : (bulletHitScan b (pre ++ e :: post)).consumed = true := by
    rw [hcons]
    simp only [bulletHitScan, he, if_true]
    split <;> rfl
  have hscan1 : (playerBulletsScan [b] (pre ++ e :: post)).1 =
      [{ b with alive := false }] := by
    simp only [playerBulletsScan, hconsumed, if_true]
  refine ⟨hconsumed, hscan1, rfl, ?_, ?_, ?_, ?_⟩
  · show (bulletHitScan b (pre ++ e :: post)).auraGain + 0 = _
    exact Nat.add_zero _
  · show ((bulletHitScan b (pre ++ e :: post)).bossKilled || false) = _
    exact Bool.or_false _
  · intro hhp
    have hhead : bulletHitScan b (e :: post) =
        ⟨post, true, killReward e, e.boss⟩ := by
      simp only [bulletHitScan, he, if_true]
      rw [if_pos hhp]
    rw [hen, hau, hbk, hhead]
    exact ⟨rfl, rfl, rfl⟩
  · intro hhp
    have hhead : bulletHitScan b (e :: post) =
        ⟨{ e with hp := e.hp - (b.damage : ℤ) } :: post, true, 0, false⟩ := by
      simp only [bulletHitScan, he, if_true]
      rw [if_neg (by omega)]
    rw [hen, hau, hbk, hhead]
    exact ⟨rfl, rfl, rfl⟩

/-- Witness for C2: a bullet that overlaps the second enemy of the list
(the first is out of reach) and kills it, granting `10 + 1*4 = 14` aura. -/
theorem c2_hit_resolution_witness :
    (bulletHitScan pb ([farEnemy] ++ weakEnemy :: [nearEnemy])).consumed = true ∧
    (bulletHitScan pb ([farEnemy] ++ weakEnemy :: [nearEnemy])).enemies =
      [farEnemy] ++ [nearEnemy] ∧
    (bulletHitScan pb ([farEnemy] ++ weakEnemy :: [nearEnemy])).auraGain =
      10 + weakEnemy.level * 4 + (if weakEnemy.boss then 45 else 0) := by
  have h := c2_hit_resolution pb [farEnemy] [nearEnemy] weakEnemy
    (by intro e' h; simp only [List.mem_singleton] at h; subst h; decide) (by decide)
  have h6 := h.2.2.2.2.2.1 (by decide)
  exact ⟨h.1, h6.1, h6.2.1⟩

/-- C7: in one tick a player bullet damages at most one enemy, even when
it overlaps several: either it misses every enemy (list unchanged, bullet
not consumed), or the list splits at the first colliding enemy, the
bullet is consumed there, and every other enemy — before and after —
is returned unchanged (the scan stops at the hit). -/
theorem c7_at_most_one_hit (b : Bullet) (es : List Enemy) :
    ((bulletHitScan b es).enemies = es ∧ (bulletHitScan b es).consumed = false ∧
      ∀ e ∈ es, circleHit e.pos b.pos (e.radius + b.radius) = false) ∨
    (∃ pre e post, es = pre ++ e :: post ∧
      (∀ e' ∈ pre, circleHit e'.pos b.pos (e'.radius + b.radius) = false) ∧
      circleHit e.pos b.pos (e.radius + b.radius) = true ∧
      (bulletHitScan b es).consumed = true ∧
      ((bulletHitScan b es).enemies = pre ++ post ∨
        (bulletHitScan b es).enemies =
          pre ++ { e with hp := e.hp - (b.damage : ℤ) } :: post)) := by
  induction es with
  | nil => exact Or.inl ⟨rfl, rfl, by intro e h; cases h⟩
  | cons a es ih =>
    by_cases ha : circleHit a.pos b.pos (a.radius + b.radius) = true
    · refine Or.inr ⟨[], a, es, rfl, (by intro e' h; cases h), ha, ?_, ?_⟩
      · simp only [bulletHitScan, ha, if_true]
        split <;> rfl
      · simp only [bulletHitScan, ha, if_true]
        split
        · exact Or.inl rfl
        · exact Or.inr rfl
    · have ha' : circleHit a.pos b.pos (a.radius + b.radius) = false :=
        Bool.not_eq_true _ ▸ ha
      have hstep : bulletHitScan b (a :: es) =
          ⟨a :: (bulletHitScan b es).enemies, (bulletHitScan b es).consumed,
           (bulletHitScan b es).auraGain, (bulletHitScan b es).bossKilled⟩ := by
        simp only [bulletHitScan, ha', Bool.false_eq_true, if_false]
      rcases ih with ⟨h1, h2, h3⟩ | ⟨pre, e, post, heq, hpre, he, hcons, hres⟩
      · refine Or.inl ⟨?_, ?_, ?_⟩
        · rw [hstep, h1]
        · rw [hstep]; exact h2
        · intro e hmem
          rcases List.mem_cons.mp hmem with rfl | hmem
          · exact ha'
          · exact h3 e hmem
      · refine Or.inr ⟨a :: pre, e, post, (by rw [heq, List.cons_append]), ?_, he, ?_, ?_⟩
        · intro e' hmem
          rcases List.mem_cons.mp hmem with rfl | hmem
          · exact ha'
          · exact hpre e' hmem
        · rw [hstep]; exact hcons
        · rw [hstep]
          rcases hres with h | h
          · exact Or.inl (by rw [h, List.cons_append])
          · exact Or.inr (by rw [h, List.cons_append])

theorem bossSpawnStep_pos (g : Game) (inp : TickInput) (h1 : g.boss_spawned = false)
    (h2 : g.world.aura_required_for_boss_spawn ≤ g.player.aura) :
    g.bossSpawnStep inp = g.spawn_boss inp := if_pos ⟨h1, h2⟩

theorem bossSpawnStep_neg (g : Game) (inp : TickInput)
    (h : ¬(g.boss_spawned = false ∧
      g.world.aura_required_for_boss_spawn ≤ g.player.aura)) :
    g.bossSpawnStep inp = g := if_neg h

theorem enemySpawnStep_pos (g : Game) (inp : TickInput) (h1 : g.boss_spawned = false)
    (h2 : inp.enemyRoll = true) :
    g.enemySpawnStep inp = g.spawn_enemy inp := if_pos ⟨h1, h2⟩

theorem enemySpawnStep_neg (g : Game) (inp : TickInput)
    (h : ¬(g.boss_spawned = false ∧ inp.enemyRoll = true)) :
    g.enemySpawnStep inp = g := if_neg h

/-- C3: the boss-spawn policy of `handle_spawning`.  (1) After the call,
`boss_spawned` holds iff it already held or the aura threshold is
reached — so the flag is monotone within a world and, with (2) and (3),
the boss is spawned at most once, exactly on the first tick where
`aura ≥ aura_required_for_boss_spawn` with the flag still down.
(2) With the flag up, no enemy of any kind is spawned.  (3) On the
spawning tick, exactly the boss is appended — `level = boss_level`,
`boss = true`, fixed top-center position — and the regular spawn of that
same tick is suppressed.  (4) Below the threshold the flag stays down and
at most one regular (non-boss) enemy spawns. -/
theorem c3_boss_spawn_policy (g : Game) (inp : TickInput) :
    ((g.handle_spawning inp).boss_spawned =
      (g.boss_spawned || decide (g.world.aura_required_for_boss_spawn ≤ g.player.aura))) ∧
    (g.boss_spawned = true → (g.handle_spawning inp).enemies = g.enemies) ∧
    (g.boss_spawned = false → g.world.aura_required_for_boss_spawn ≤ g.player.aura →
      (g.handle_spawning inp).enemies = g.enemies ++
        [Enemy.init g.world.boss_level ⟨450, 80⟩ true inp.bossShootTimer inp.bossWobble] ∧
      (Enemy.init g.world.boss_level ⟨450, 80⟩ true inp.bossShootTimer
        inp.bossWobble).level = g.world.boss_level ∧
      (Enemy.init g.world.boss_level ⟨450, 80⟩ true inp.bossShootTimer
        inp.bossWobble).boss = true ∧
      (Enemy.init g.world.boss_level ⟨450, 80⟩ true inp.bossShootTimer
        inp.bossWobble).pos = ⟨450, 80⟩ ∧
      (g.handle_spawning inp).boss_spawned = true) ∧
    (g.boss_spawned = false → g.player.aura < g.world.aura_required_for_boss_spawn →
      (g.handle_spawning inp).boss_spawned = false ∧
      (g.handle_spawning inp).enemies =
        (if inp.enemyRoll = true
          then g.enemies ++ [Enemy.init inp.newEnemyLevel inp.newEnemyPos false
            inp.newEnemyShootTimer inp.newEnemyWobble]
          else g.enemies) ∧
      (Enemy.init inp.newEnemyLevel inp.newEnemyPos false inp.newEnemyShootTimer
        inp.newEnemyWobble).boss = false) := by
  have hb1 := pickupSpawnStep_boss_spawned g inp
  have hw1 := pickupSpawnStep_world g inp
  have hpl1 := pickupSpawnStep_player g inp
  have hen1 := pickupSpawnStep_enemies g inp
  unfold Game.handle_spawning
  refine ⟨?_, ?_, ?_, ?_⟩
  · by_cases hb : g.boss_spawned = true
    · rw [bossSpawnStep_neg _ inp (fun hc => by rw [hb1, hb] at hc; exact absurd hc.1 (by simp))]
      rw [enemySpawnStep_neg _ inp (fun hc => by rw [hb1, hb] at hc; exact absurd hc.1 (by simp))]
      rw [hb1, hb, Bool.true_or]
    · have hbf : g.boss_spawned = false := Bool.not_eq_true _ ▸ hb
      by_cases ha : g.world.aura_required_for_boss_spawn ≤ g.player.aura
      · rw [bossSpawnStep_pos _ inp (by rw [hb1, hbf]) (by rw [hw1, hpl1]; exact ha)]
        rw [enemySpawnStep_neg _ inp (fun hc => by exact absurd hc.1 (by simp [Game.spawn_boss]))]
        rw [hbf, Bool.false_or, decide_eq_true ha]
        rfl
      · rw [bossSpawnStep_neg _ inp (fun hc => by rw [hw1, hpl1] at hc; exact absurd hc.2 ha)]
        by_cases hr : inp.enemyRoll = true
        · rw [enemySpawnStep_pos _ inp (by rw [hb1, hbf]) hr]
          rw [hbf, Bool.false_or, decide_eq_false ha]
          rw [show ((g.pickupSpawnStep inp).spawn_enemy inp).boss_spawned =
            (g.pickupSpawnStep inp).boss_spawned from rfl, hb1, hbf]
        · rw [enemySpawnStep_neg _ inp (fun hc => absurd hc.2 hr)]
          rw [hb1, hbf, Bool.false_or, decide_eq_false ha]
  · intro hb
    rw [bossSpawnStep_neg _ inp (fun hc => by rw [hb1, hb] at hc; exact absurd hc.1 (by simp))]
    rw [enemySpawnStep_neg _ inp (fun hc => by rw [hb1, hb] at hc; exact absurd hc.1 (by simp))]
    exact hen1
  · intro hbf ha
    rw [bossSpawnStep_pos _ inp (by rw [hb1, hbf]) (by rw [hw1, hpl1]; exact ha)]
    rw [enemySpawnStep_neg _ inp (fun hc => by exact absurd hc.1 (by simp [Game.spawn_boss]))]
    refine ⟨?_, rfl, rfl, rfl, rfl⟩
    show (g.pickupSpawnStep inp).enemies ++ _ = _
    rw [hen1, hw1]
  · intro hbf ha
    have ha' : ¬ g.world.aura_required_for_boss_spawn ≤ g.player.aura := Nat.not_le.mpr ha
    rw [bossSpawnStep_neg _ inp (fun hc => by rw [hw1, hpl1] at hc; exact absurd hc.2 ha')]
    by_cases hr : inp.enemyRoll = true
    · rw [enemySpawnStep_pos _ inp (by rw [hb1, hbf]) hr]
      refine ⟨by rw [show (Game.spawn_enemy _ inp).boss_spawned =
        (g.pickupSpawnStep inp).boss_spawned from rfl, hb1, hbf], ?_, rfl⟩
      rw [if_pos hr]
      show (g.pickupSpawnStep inp).enemies ++ _ = _
      rw [hen1]
    · rw [enemySpawnStep_neg _ inp (fun hc => absurd hc.2 hr)]
      refine ⟨by rw [hb1, hbf], ?_, rfl⟩
      rw [if_neg hr, hen1]

/-- Witness for C3: from a state at the aura threshold (220 in world 1)
with the flag down, the tick spawns exactly the boss. -/
theorem c3_boss_spawn_policy_witness :
    (gBoss.handle_spawning inpZero).enemies = gBoss.enemies ++
      [Enemy.init gBoss.world.boss_level ⟨450, 80⟩ true inpZero.bossShootTimer
        inpZero.bossWobble] ∧
    (Enemy.init gBoss.world.boss_level ⟨450, 80⟩ true inpZero.bossShootTimer
      inpZero.bossWobble).level = gBoss.world.boss_level ∧
    (Enemy.init gBoss.world.boss_level ⟨450, 80⟩ true inpZero.bossShootTimer
      inpZero.bossWobble).boss = true ∧
    (Enemy.init gBoss.world.boss_level ⟨450, 80⟩ true inpZero.bossShootTimer
      inpZero.bossWobble).pos = ⟨450, 80⟩ ∧
    (gBoss.handle_spawning inpZero).boss_spawned = true :=
  (c3_boss_spawn_policy gBoss inpZero).2.2.1 rfl (by decide)

theorem enemyBulletsPhase_lives_eq (g : Game) :
    g.enemyBulletsPhase.player.lives =
      (enemyBulletsScan g.player.pos g.player.radius g.enemy_bullets g.player.lives
        g.state).2.1 := rfl

theorem enemyBulletsPhase_state_eq (g : Game) :
    g.enemyBulletsPhase.state =
      (enemyBulletsScan g.player.pos g.player.radius g.enemy_bullets g.player.lives
        g.state).2.2 := rfl

theorem enemyBulletsPhase_bullets_eq (g : Game) :
    g.enemyBulletsPhase.enemy_bullets =
      (enemyBulletsScan g.player.pos g.player.radius g.enemy_bullets g.player.lives
        g.state).1 := rfl

/-- C4 counterexample: a `PLAYING` state with one life, one live enemy
and one overlapping enemy bullet.  The tick does reach `GAME_OVER`, but
the enemy and the (spent) bullet are NOT discarded: both collections
still have one element after the transition, refuting "the remaining
enemies and bullets are discarded". -/
theorem c4_counterexample :
    gC4.state = GameState.PLAYING ∧ gC4.player.lives = 1 ∧
    (gC4.update inpZero).map
        (fun g' => (g'.state, g'.enemies.length, g'.enemy_bullets.length)) =
      some (GameState.GAME_OVER, 1, 1) := by decide

theorem update_playing_def (g : Game) (inp : TickInput) :
    g.update_playing inp = ((g.movePhase inp).handle_collisions).bossCheck := rfl

theorem handle_collisions_def (g : Game) :
    g.handle_collisions = g.pickupsPhase.playerBulletsPhase.enemyBulletsPhase := rfl

/-- C4 as amended: when lives reach ≤ 0 during a tick's enemy-bullet
resolution, the state becomes `GAME_OVER` in that same tick and
`world_index` is untouched (regardless of world progress); however the
remaining enemies are retained exactly as the player-bullet phase left
them, and the enemy-bullet list keeps its length (hit bullets are only
marked dead), until `reset_world` clears them on restart. -/
theorem c4_game_over_retains_entities (g : Game) (inp : TickInput)
    (hst : g.state = GameState.PLAYING) (hl : 0 < g.player.lives) :
    ∃ g', g.update inp = some g' ∧
      (g'.player.lives ≤ 0 → g'.state = GameState.GAME_OVER) ∧
      g'.world_index = g.world_index ∧
      g'.enemies = ((g.movePhase inp).pickupsPhase.playerBulletsPhase).enemies ∧
      g'.enemy_bullets.length =
        ((g.movePhase inp).pickupsPhase.playerBulletsPhase).enemy_bullets.length := by
  have hm : ((g.movePhase inp).pickupsPhase.playerBulletsPhase).player.lives =
      g.player.lives := by
    rw [playerBulletsPhase_lives, pickupsPhase_lives, movePhase_lives]
  have hspec := enemyBulletsScan_spec
    ((g.movePhase inp).pickupsPhase.playerBulletsPhase).player.pos
    ((g.movePhase inp).pickupsPhase.playerBulletsPhase).player.radius
    ((g.movePhase inp).pickupsPhase.playerBulletsPhase).enemy_bullets
    ((g.movePhase inp).pickupsPhase.playerBulletsPhase).player.lives
    ((g.movePhase inp).pickupsPhase.playerBulletsPhase).state
    (fun hc => absurd (hm ▸ hc) (by omega))
  refine ⟨g.update_playing inp, update_eq_playing g inp hst, ?_, ?_, ?_, ?_⟩
  · intro hlow
    rw [update_playing_def] at hlow ⊢
    rw [bossCheck_player, handle_collisions_def, enemyBulletsPhase_lives_eq] at hlow
    apply bossCheck_state_game_over
    rw [handle_collisions_def, enemyBulletsPhase_state_eq]
    exact hspec.1 hlow
  · rw [update_playing_def, bossCheck_world_index, handle_collisions_def,
      enemyBulletsPhase_world_index, playerBulletsPhase_world_index,
      pickupsPhase_world_index, movePhase_world_index]
  · rw [update_playing_def, bossCheck_enemies, handle_collisions_def,
      enemyBulletsPhase_enemies]
  · rw [update_playing_def, bossCheck_enemy_bullets, handle_collisions_def,
      enemyBulletsPhase_bullets_eq]
    exact hspec.2.2

/-- Witness for the amended C4 on the concrete state `gC4`. -/
theorem c4_game_over_retains_entities_witness :
    ∃ g', gC4.update inpZero = some g' ∧
      (g'.player.lives ≤ 0 → g'.state = GameState.GAME_OVER) ∧
      g'.world_index = gC4.world_index ∧
      g'.enemies = ((gC4.movePhase inpZero).pickupsPhase.playerBulletsPhase).enemies ∧
      g'.enemy_bullets.length =
        ((gC4.movePhase inpZero).pickupsPhase.playerBulletsPhase).enemy_bullets.length :=
  c4_game_over_retains_entities gC4 inpZero rfl (by decide)

/-- C6 counterexample: (a) from the reachable-looking state `gC6`
(lives = 1 ≥ 0) one tick with two overlapping enemy bullets yields
`lives = -1 < 0`, refuting "lives is an int ≥ 0 in every reachable
state"; (b) the full-victory transition produces `GAME_OVER` with
3 > 0 lives, refuting "the game ends exactly when lives reach ≤ 0". -/
theorem c6_counterexample :
    gC6.state = GameState.PLAYING ∧ gC6.player.lives = 1 ∧
    (gC6.update inpZero).map (fun g' => g'.player.lives) = some (-1) ∧
    (gVic.update inpZero).map (fun g' => (g'.state, g'.player.lives)) =
      some (GameState.GAME_OVER, 3) := by decide

/-- C6 as amended: during play, `lives` never increases; it may drop
below 0 when several enemy bullets hit in the same tick, and whenever it
ends a tick at ≤ 0 the state is `GAME_OVER` in that same tick (the
converse fails: a full-victory `GAME_OVER` keeps its positive lives). -/
theorem c6_lives_game_over (g : Game) (inp : TickInput)
    (hst : g.state = GameState.PLAYING) (hl : 0 < g.player.lives) :
    ∃ g', g.update inp = some g' ∧ g'.player.lives ≤ g.player.lives ∧
      (g'.player.lives ≤ 0 → g'.state = GameState.GAME_OVER) := by
  have hm : ((g.movePhase inp).pickupsPhase.playerBulletsPhase).player.lives =
      g.player.lives := by
    rw [playerBulletsPhase_lives, pickupsPhase_lives, movePhase_lives]
  have hspec := enemyBulletsScan_spec
    ((g.movePhase inp).pickupsPhase.playerBulletsPhase).player.pos
    ((g.movePhase inp).pickupsPhase.playerBulletsPhase).player.radius
    ((g.movePhase inp).pickupsPhase.playerBulletsPhase).enemy_bullets
    ((g.movePhase inp).pickupsPhase.playerBulletsPhase).player.lives
    ((g.movePhase inp).pickupsPhase.playerBulletsPhase).state
    (fun hc => absurd (hm ▸ hc) (by omega))
  refine ⟨g.update_playing inp, update_eq_playing g inp hst, ?_, ?_⟩
  · rw [update_playing_def, bossCheck_player, handle_collisions_def,
      enemyBulletsPhase_lives_eq]
    exact le_trans hspec.2.1 (le_of_eq hm)
  · intro hlow
    rw [update_playing_def] at hlow ⊢
    rw [bossCheck_player, handle_collisions_def, enemyBulletsPhase_lives_eq] at hlow
    apply bossCheck_state_game_over
    rw [handle_collisions_def, enemyBulletsPhase_state_eq]
    exact hspec.1 hlow

/-- Witness for the amended C6 on the concrete state `gC6`. -/
theorem c6_lives_game_over_witness :
    ∃ g', gC6.update inpZero = some g' ∧ g'.player.lives ≤ gC6.player.lives ∧
      (g'.player.lives ≤ 0 → g'.state = GameState.GAME_OVER) :=
  c6_lives_game_over gC6 inpZero rfl (by decide)

/-- Witness for C7: the disjunction evaluated on a concrete bullet and
enemy list. -/
theorem c7_at_most_one_hit_witness :
    ((bulletHitScan pb [farEnemy, nearEnemy]).enemies = [farEnemy, nearEnemy] ∧
      (bulletHitScan pb [farEnemy, nearEnemy]).consumed = false ∧
      ∀ e ∈ [farEnemy, nearEnemy],
        circleHit e.pos pb.pos (e.radius + pb.radius) = false) ∨
    (∃ pre e post, [farEnemy, nearEnemy] = pre ++ e :: post ∧
      (∀ e' ∈ pre, circleHit e'.pos pb.pos (e'.radius + pb.radius) = false) ∧
      circleHit e.pos pb.pos (e.radius + pb.radius) = true ∧
      (bulletHitScan pb [farEnemy, nearEnemy]).consumed = true ∧
      ((bulletHitScan pb [farEnemy, nearEnemy]).enemies = pre ++ post ∨
        (bulletHitScan pb [farEnemy, nearEnemy]).enemies =
          pre ++ { e with hp := e.hp - (pb.damage : ℤ) } :: post)) :=
  c7_at_most_one_hit pb [farEnemy, nearEnemy]

end LightWar
